import Mathlib

/-!
Verification of the remote process lifecycle subsystem of a vast.ai MCP
server (src/server.py) against its natural-language specification.

The Python source is shallowly embedded: each remote interaction is
modelled by the data the code observes (parse results of the key file,
captured stdout/stderr/exit status of remote snippets, liveness probe
answers), and each operation becomes a total Lean function from those
observations to the value the Python function returns.
-/

namespace VastMCP

/-! ## Key loading (src/server.py)

The source loads the private key by trying paramiko parsers in the fixed
order RSA, Ed25519, ECDSA, DSS.  A key file is modelled by the outcome
each parser gives on it. -/

/-- Outcome of one paramiko parse attempt on the key file: the parser
succeeds, raises PasswordRequiredException, or raises some other
exception carrying a message. -/
inductive ParseAttempt where
  | ok : ParseAttempt
  | passphrase : ParseAttempt
  | fail : String → ParseAttempt
deriving DecidableEq, Repr

/-- A key file on disk, modelled by what each of the four paramiko
parsers does with it. -/
structure KeyFile where
  rsa : ParseAttempt
  ed25519 : ParseAttempt
  ecdsa : ParseAttempt
  dss : ParseAttempt
deriving DecidableEq, Repr

/-- Which algorithm a successful load used. -/
inductive KeyAlgo where
  | rsa | ed25519 | ecdsa | dss
deriving DecidableEq, Repr

/-- Result of the key-loading cascade as the Python code distinguishes
it: a loaded key, the distinct passphrase failure, or a generic load
error carrying the message shown to the user. -/
inductive KeyLoadOutcome where
  | loaded : KeyAlgo → KeyLoadOutcome
  | passphraseRequired : KeyLoadOutcome
  | loadError : String → KeyLoadOutcome
deriving DecidableEq, Repr

/-- Message paramiko attaches to a PasswordRequiredException; used where
the code stringifies the caught RSA exception. -/
def passphraseMsg : String := "Private key file is encrypted"

/-- String form of a failed parse attempt, mirroring str(key_error) in
the source. -/
def attemptMsg : ParseAttempt → String
  | .ok => ""
  | .passphrase => passphraseMsg
  | .fail m => m

/-- Key-loading cascade of _execute_ssh_command (src/server.py lines
312-340): try RSAKey; on PasswordRequiredException return the distinct
passphrase error; on any other exception try Ed25519Key, ECDSAKey,
DSSKey under bare excepts, and if all fail report the RSA error
message. -/
def loadKeyExecute (f : KeyFile) : KeyLoadOutcome :=
  match f.rsa with
  | .ok => .loaded .rsa
  | .passphrase => .passphraseRequired
  | .fail msg =>
    match f.ed25519 with
    | .ok => .loaded .ed25519
    | _ =>
      match f.ecdsa with
      | .ok => .loaded .ecdsa
      | _ =>
        match f.dss with
        | .ok => .loaded .dss
        | _ => .loadError msg

/-- Key-loading cascade of ssh_execute_background_command (src/server.py
lines 1276-1291); identical structure to the one in
_execute_ssh_command, duplicated at that call site. -/
def loadKeyLaunch (f : KeyFile) : KeyLoadOutcome :=
  match f.rsa with
  | .ok => .loaded .rsa
  | .passphrase => .passphraseRequired
  | .fail msg =>
    match f.ed25519 with
    | .ok => .loaded .ed25519
    | _ =>
      match f.ecdsa with
      | .ok => .loaded .ecdsa
      | _ =>
        match f.dss with
        | .ok => .loaded .dss
        | _ => .loadError msg

/-- Key-loading cascade of ssh_check_background_task (src/server.py
lines 1392-1404).  Unlike the execute and launch sites, the RSA attempt
is guarded only by a generic except-Exception handler, so a
PasswordRequiredException falls through to the Ed25519/ECDSA/DSS
attempts; if none parses, the error shown stringifies the original RSA
exception. -/
def loadKeyCheck (f : KeyFile) : KeyLoadOutcome :=
  match f.rsa with
  | .ok => .loaded .rsa
  | e =>
    match f.ed25519 with
    | .ok => .loaded .ed25519
    | _ =>
      match f.ecdsa with
      | .ok => .loaded .ecdsa
      | _ =>
        match f.dss with
        | .ok => .loaded .dss
        | _ => .loadError (attemptMsg e)

/-- Key-loading cascade of ssh_kill_background_task (src/server.py lines
1492-1503); identical structure to the one in ssh_check_background_task,
with the same generic handler around the RSA attempt. -/
def loadKeyKill (f : KeyFile) : KeyLoadOutcome :=
  match f.rsa with
  | .ok => .loaded .rsa
  | e =>
    match f.ed25519 with
    | .ok => .loaded .ed25519
    | _ =>
      match f.ecdsa with
      | .ok => .loaded .ecdsa
      | _ =>
        match f.dss with
        | .ok => .loaded .dss
        | _ => .loadError (attemptMsg e)

/-- A passphrase-protected key file that no other parser accepts:
paramiko raises PasswordRequiredException from the RSA parser and the
remaining parsers fail with type-mismatch errors. -/
def encryptedRsaKeyFile : KeyFile :=
  { rsa := .passphrase
  , ed25519 := .fail "not a valid Ed25519 private key file"
  , ecdsa := .fail "not a valid ECDSA private key file"
  , dss := .fail "not a valid DSS private key file" }

/-! ## Artifact paths

Each of the three background-task operations recomputes the log and pid
paths from the task id alone (src/server.py lines 1260-1261, 1378-1379,
1477-1478).  The source names both variables log_file and pid_file at
every site; the Lean names are prefixed by the operation. -/

/-- Log path computed in ssh_execute_background_command (line 1260). -/
def launchLogFile (taskId : String) : String := "/tmp/ssh_task_" ++ taskId ++ ".log"

/-- Pid path computed in ssh_execute_background_command (line 1261). -/
def launchPidFile (taskId : String) : String := "/tmp/ssh_task_" ++ taskId ++ ".pid"

/-- Log path computed in ssh_check_background_task (line 1378). -/
def checkLogFile (taskId : String) : String := "/tmp/ssh_task_" ++ taskId ++ ".log"

/-- Pid path computed in ssh_check_background_task (line 1379). -/
def checkPidFile (taskId : String) : String := "/tmp/ssh_task_" ++ taskId ++ ".pid"

/-- Log path computed in ssh_kill_background_task (line 1477). -/
def killLogFile (taskId : String) : String := "/tmp/ssh_task_" ++ taskId ++ ".log"

/-- Pid path computed in ssh_kill_background_task (line 1478). -/
def killPidFile (taskId : String) : String := "/tmp/ssh_task_" ++ taskId ++ ".pid"

/-- Task id generation of ssh_execute_background_command (lines
1255-1257): a random 8-character suffix, prefixed by the optional task
name and an underscore. -/
def mkTaskId (taskName : Option String) (suffix : String) : String :=
  match taskName with
  | some n => n ++ "_" ++ suffix
  | none => suffix

/-! ## Background launch (ssh_execute_background_command, lines 1304-1352)

The launch snippet is executed over one session; the code observes its
captured stdout, stderr and exit status (each stream already stripped of
surrounding whitespace by the .strip() calls at lines 1323-1324). -/

/-- Captured result of the remote launch snippet: stripped stdout,
stripped stderr, and the exit status. -/
structure SnippetResult where
  stdout : String
  stderr : String
  exitStatus : Int
deriving DecidableEq, Repr

/-- Digits-only parse helper for parsePyInt. -/
def parseDigits (cs : List Char) : Option Nat :=
  match cs with
  | [] => none
  | _ =>
    if cs.all (fun c => c.isDigit) then
      some (cs.foldl (fun a c => 10 * a + (c.toNat - 48)) 0)
    else
      none

/-- Semantics of the Python int() conversion on an already-stripped
string: an optional sign followed by one or more decimal digits. -/
def parsePyInt (s : String) : Option Int :=
  match s.toList with
  | [] => none
  | c :: rest =>
    if c = '-' then (parseDigits rest).map (fun n => -(n : Int))
    else if c = '+' then (parseDigits rest).map (fun n => (n : Int))
    else (parseDigits (c :: rest)).map (fun n => (n : Int))

/-- Value returned by the background launch: either the task handle data
echoed to the caller, or one of the two failure strings. -/
inductive LaunchResult where
  | started : String → Int → String → String → LaunchResult
  | launchFailure : String → LaunchResult
deriving DecidableEq, Repr

/-- Test for the failure branch of a launch result. -/
def LaunchResult.isFailure : LaunchResult → Bool
  | .launchFailure _ => true
  | .started _ _ _ _ => false

/-- Launch outcome logic of ssh_execute_background_command (lines
1327-1352): the code fails when stderr is non-empty or the exit status
is non-zero (line 1327), then fails when stdout does not convert with
int() (lines 1330-1333), and otherwise reports the handle consisting of
task id, process id, log path and pid path. -/
def sshExecuteBackgroundCommand (taskId : String) (r : SnippetResult) : LaunchResult :=
  if r.stderr ≠ "" ∨ r.exitStatus ≠ 0 then
    .launchFailure ("Error starting background task:\nSTDERR: " ++ r.stderr ++
      "\nExit Status: " ++ toString r.exitStatus)
  else
    match parsePyInt r.stdout with
    | some pid => .started taskId pid (launchLogFile taskId) (launchPidFile taskId)
    | none => .launchFailure ("Failed to parse process ID: " ++ r.stdout)

/-! ## Background monitor (ssh_check_background_task, lines 1414-1453) -/

/-- Remote host facts the monitor observes about one task: whether the
pid answers the signal-0 probe, whether the log file exists, and the log
lines when it does. -/
structure RemoteTaskState where
  processAlive : Bool
  logFileExists : Bool
  logContent : List String
deriving DecidableEq, Repr

/-- Status report assembled by the monitor from its three remote
commands: the liveness answer, the captured log tail, and the captured
line count (both as the strings the code receives). -/
structure StatusReport where
  processStatus : String
  logTail : String
  logLineCount : String
deriving DecidableEq, Repr

/-- Last n elements of a list, the semantics of tail -n. -/
def tailLinesOf (n : Nat) (lines : List String) : List String :=
  lines.drop (lines.length - n)

/-- Remote observation step of ssh_check_background_task (lines
1414-1427): the probe prints RUNNING or STOPPED; the log command prints
the tail when the file exists and the text Log file not found otherwise;
the size command prints the line count when the file exists and 0
otherwise. -/
def sshCheckBackgroundTask (st : RemoteTaskState) (tailLines : Nat) : StatusReport :=
  { processStatus := if st.processAlive then "RUNNING" else "STOPPED"
  , logTail :=
      if st.logFileExists then
        String.intercalate "\n" (tailLinesOf tailLines st.logContent)
      else "Log file not found"
  , logLineCount :=
      if st.logFileExists then toString st.logContent.length else "0" }

/-- Monitor tool around the observation step (lines 1383-1456): key
loading uses loadKeyCheck, whose failure returns an error string; a
failure raised while connecting or running the remote commands is caught
by the final handler and returned as an error string; otherwise the
status report is produced.  An error value models the tool returning one
of its error strings instead of a report. -/
def sshCheckBackgroundTaskTool (f : KeyFile) (connect : Except String Unit)
    (st : RemoteTaskState) (tailLines : Nat) : Except String StatusReport :=
  match loadKeyCheck f with
  | .loaded _ =>
    match connect with
    | .ok _ => .ok (sshCheckBackgroundTask st tailLines)
    | .error e => .error ("Error checking background task: " ++ e)
  | .loadError m => .error ("Error loading private key: " ++ m)
  | .passphraseRequired => .error ("Error loading private key: " ++ passphraseMsg)

/-! ## Background terminator (ssh_kill_background_task, lines 1512-1560)

The kill tool first probes liveness, then, only when the probe answered
RUNNING, runs one remote snippet that sends the graceful signal, sleeps
the fixed 2-second grace period, re-probes, and force-kills only when
the re-probe still finds the process; cleanup always follows. -/

/-- Observable remote actions of the kill tool, in order of occurrence:
the initial probe, the graceful kill, the grace-period sleep, the
re-probe inside the snippet, the kill -9, and the artifact cleanup. -/
inductive KillEvent where
  | probe | sigTerm | graceSleep | reprobe | sigKill | cleanup
deriving DecidableEq, Repr

/-- Remote process behavior during one kill call: whether the pid is
alive at the initial probe, and whether it is still alive when re-probed
after the graceful signal and the grace sleep. -/
structure KillScenario where
  aliveAtProbe : Bool
  aliveAfterGrace : Bool
deriving DecidableEq, Repr

/-- Semantics of the kill_cmd shell snippet (lines 1523-1535): send the
graceful signal, sleep 2, re-probe; echo FORCE_KILLED after a kill -9
when still alive, else echo TERMINATED. -/
def killSnippet (aliveAfterGrace : Bool) : String × List KillEvent :=
  if aliveAfterGrace then
    ("FORCE_KILLED", [.sigTerm, .graceSleep, .reprobe, .sigKill])
  else
    ("TERMINATED", [.sigTerm, .graceSleep, .reprobe])

/-- Result of one kill call: the probe answer, the string echoed by the
kill snippet when it ran, and the ordered remote actions performed. -/
structure KillReport where
  statusLine : String
  killResult : Option String
  events : List KillEvent
deriving DecidableEq, Repr

/-- Kill tool logic (lines 1512-1560): probe with kill -0; when the
answer is NOT_RUNNING report the already-stopped message and skip
straight to cleanup; otherwise run the kill snippet and then cleanup.
Cleanup runs on both branches (lines 1551-1554). -/
def sshKillBackgroundTask (sc : KillScenario) : KillReport :=
  let status := if sc.aliveAtProbe then "RUNNING" else "NOT_RUNNING"
  if status = "NOT_RUNNING" then
    { statusLine := status, killResult := none, events := [.probe, .cleanup] }
  else
    let r := killSnippet sc.aliveAfterGrace
    { statusLine := status, killResult := some r.1
    , events := [KillEvent.probe] ++ r.2 ++ [KillEvent.cleanup] }

/-! ## Instance readiness poller (wait_for_instance_ready, lines 100-130)

The loop guard compares elapsed wall-clock time with the timeout; each
round that enters the loop performs one status query.  A run is modelled
by the list of observations the loop would make: at every guard check,
the elapsed seconds at that moment, paired with what the status query of
that round would yield.  Elapsed readings are non-negative because the
clock is read after start_time. -/

/-- Outcome of one status query round: the actual_status string obtained
from the API (the code substitutes unknown when the field is missing),
or a raised exception, which the round catches, logs and sleeps on. -/
inductive InstStatus where
  | statusStr : String → InstStatus
  | queryFailed : InstStatus
deriving DecidableEq, Repr

/-- Terminal reports of the poller mirroring the three return
statements: the ready report, the failed report carrying the raw status,
and the timeout report recommending destroy-and-recreate. -/
inductive ReadyOutcome where
  | ready : ReadyOutcome
  | failedTerminal : String → ReadyOutcome
  | timedOut : ReadyOutcome
deriving DecidableEq, Repr

/-- Poller loop of wait_for_instance_ready, returning the report
together with the number of status queries issued; none models a trace
too short to drive the loop to a return. -/
def waitForInstanceReady (timeout : Int) :
    List (Int × InstStatus) → Option (ReadyOutcome × Nat)
  | [] => none
  | (elapsed, st) :: rest =>
    if elapsed < timeout then
      match st with
      | .statusStr s =>
        if s = "running" then some (.ready, 1)
        else if s = "failed" ∨ s = "exited" then some (.failedTerminal s, 1)
        else (waitForInstanceReady timeout rest).map (fun p => (p.1, p.2 + 1))
      | .queryFailed =>
        (waitForInstanceReady timeout rest).map (fun p => (p.1, p.2 + 1))
    else
      some (.timedOut, 0)

/-! ## Network round trips and their configured timeouts

Every network call site of the subsystem, with the timeout the source
passes at that site: the four paramiko connect calls each pass
timeout=30 (lines 342-349, 1294-1300, 1406-1412, 1505-1511); the API
request helper passes timeout=30 (line 178); the eight paramiko
exec_command round trips (lines 355, 1320, 1416, 1421, 1426, 1515,
1536, 1553) pass no timeout argument, leaving the paramiko default
channel timeout of None on the subsequent reads; and the two result-URL
polling GET calls (lines 998 and 1175) pass no timeout argument. -/

/-- Enumeration of the network call sites in src/server.py: the SSH
connects, the API request helper, the eight remote command execution
round trips, and the two HTTP result polling GETs. -/
inductive NetworkCall where
  | sshConnectExecute
  | sshConnectLaunch
  | sshConnectCheck
  | sshConnectKill
  | apiRequest
  | execCommandExecute
  | execCommandLaunch
  | execCommandCheckProbe
  | execCommandCheckLog
  | execCommandCheckSize
  | execCommandKillProbe
  | execCommandKillSnippet
  | execCommandKillCleanup
  | resultPollGetExecuteCommand
  | resultPollGetLogs
deriving DecidableEq, Repr

/-- Timeout in seconds configured at each call site, none when the call
is issued without a timeout argument (the paramiko exec_command default
is timeout None, so the reads and the exit-status wait on those eight
round trips are unbounded, as are the two requests GET calls). -/
def configuredTimeout : NetworkCall → Option Nat
  | .sshConnectExecute => some 30
  | .sshConnectLaunch => some 30
  | .sshConnectCheck => some 30
  | .sshConnectKill => some 30
  | .apiRequest => some 30
  | .execCommandExecute => none
  | .execCommandLaunch => none
  | .execCommandCheckProbe => none
  | .execCommandCheckLog => none
  | .execCommandCheckSize => none
  | .execCommandKillProbe => none
  | .execCommandKillSnippet => none
  | .execCommandKillCleanup => none
  | .resultPollGetExecuteCommand => none
  | .resultPollGetLogs => none

/-! ## One-shot execution helper (_execute_ssh_command, lines 288-407)

The helper returns a dict on every path; exceptions from connecting or
executing are caught by type-specific handlers that fill the error
field. -/

/-- Exception a paramiko connect or exec round can raise, as the
handlers at lines 370-401 distinguish them. -/
inductive SshRaise where
  | fileNotFound
  | authFailed
  | sshProtocol : String → SshRaise
  | unexpected : String → SshRaise
deriving DecidableEq, Repr

/-- Message the matching handler formats, given the user, host and port
of the call and the key path. -/
def sshRaiseMsg (user host : String) (port : Int) (keyPath : String) :
    SshRaise → String
  | .fileNotFound => "Private key file not found at: " ++ keyPath
  | .authFailed =>
      "Authentication failed for " ++ user ++ "@" ++ host ++ ":" ++ toString port
  | .sshProtocol m => "SSH error occurred: " ++ m
  | .unexpected m => "Unexpected error occurred: " ++ m

/-- Dict returned by _execute_ssh_command: the success flag, both
streams, the exit status and the optional error message. -/
structure SshCommandResult where
  success : Bool
  stdout : String
  stderr : String
  exitStatus : Int
  error : Option String
deriving DecidableEq, Repr

/-- Environment one helper call runs against: whether the key file
exists, the key file itself, and the outcomes of the connect and exec
round trips (error = the exception raised there). -/
structure SshEnv where
  keyFileExists : Bool
  keyFile : KeyFile
  connect : Except SshRaise Unit
  exec : Except SshRaise (String × String × Int)
deriving Repr

/-- Error dict shape used by every failure return of
_execute_ssh_command: success false, empty streams, exit status -1. -/
def errDict (msg : String) : SshCommandResult :=
  { success := false, stdout := "", stderr := "", exitStatus := -1
  , error := some msg }

/-- Logic of _execute_ssh_command (lines 288-407): missing key file and
each key-load failure return an error dict directly; a raise from the
connect or exec round is caught and becomes an error dict; a completed
command returns the streams with success set iff the exit status is
zero and error none. -/
def executeSshCommand (host user : String) (port : Int) (keyPath : String)
    (env : SshEnv) : SshCommandResult :=
  if ¬ env.keyFileExists then
    errDict ("Private key file not found at: " ++ keyPath)
  else
    match loadKeyExecute env.keyFile with
    | .passphraseRequired =>
        errDict ("Private key at " ++ keyPath ++ " is encrypted with a passphrase")
    | .loadError m =>
        errDict ("Could not load private key from " ++ keyPath ++ ": " ++ m)
    | .loaded _ =>
      match env.connect with
      | .error r => errDict (sshRaiseMsg user host port keyPath r)
      | .ok _ =>
        match env.exec with
        | .error r => errDict (sshRaiseMsg user host port keyPath r)
        | .ok (out, err, status) =>
            { success := status == 0, stdout := out, stderr := err
            , exitStatus := status, error := none }

/-- Boolean test for an environment in which some dependency of the
helper fails or raises. -/
def SshEnv.anyFailure (env : SshEnv) : Bool :=
  !env.keyFileExists ||
  (match loadKeyExecute env.keyFile with
   | .loaded _ => false
   | _ => true) ||
  (match env.connect with
   | .ok _ => false
   | .error _ => true) ||
  (match env.exec with
   | .ok _ => false
   | .error _ => true)

/-! ## Tool-level exception handling

Each public tool wraps its body in a catch-all handler that formats the
exception into a returned string, so a dependency failure never
propagates out of the tool.  The body outcome is modelled as an Except
value: ok carries the formatted success output of the try block, error
carries the exception message. -/

/-- Handler of show_user_info (lines 479-481): the body outcome is
returned on success and the caught exception is formatted otherwise. -/
def showUserInfoTool (body : Except String String) : String :=
  match body with
  | .ok s => s
  | .error e => "Error getting user info: " ++ e

/-- Handler of prepare_instance (lines 1578-1579). -/
def prepareInstanceTool (body : Except String String) : String :=
  match body with
  | .ok s => s
  | .error e => "❌ Failed to prepare instance: " ++ e

/-! ## Global client singleton (get_vast_client, lines 194-203) -/

/-- Server URL default of the source (line 21). -/
def defaultServerUrl : String := "https://console.vast.ai"

/-- Fields of VastAIClient relevant to identity: the api key resolved at
construction and the server url. -/
structure VastAIClient where
  apiKey : Option String
  serverUrl : String
deriving DecidableEq, Repr

/-- Constructor semantics of VastAIClient() with no arguments (lines
136-139): the api key falls back to the VAST_API_KEY environment value
and the server url to the default. -/
def VastAIClient.new (envApiKey : Option String) : VastAIClient :=
  { apiKey := envApiKey, serverUrl := defaultServerUrl }

/-- State-passing form of get_vast_client (lines 198-203): the module
global starts as None; when it is unset a client is constructed and
stored, otherwise the stored client is returned unchanged. -/
def getVastClient (envApiKey : Option String) :
    Option VastAIClient → VastAIClient × Option VastAIClient
  | none =>
      let c := VastAIClient.new envApiKey
      (c, some c)
  | some c => (c, some c)

/-- Trace of n successive get_vast_client calls from a given global
state: the clients returned in order, the final state, and how many
times the constructor ran. -/
def getVastClientCalls (envApiKey : Option String) :
    Nat → Option VastAIClient → List VastAIClient × Option VastAIClient × Nat
  | 0, s => ([], s, 0)
  | n + 1, s =>
    let r := getVastClient envApiKey s
    let constructed : Nat := match s with | none => 1 | some _ => 0
    let rest := getVastClientCalls envApiKey n r.2
    (r.1 :: rest.1, rest.2.1, constructed + rest.2.2)

/-! ## Concrete inputs used by witnesses and counterexamples -/

/-- A key file that the RSA parser accepts outright. -/
def plainRsaKeyFile : KeyFile :=
  { rsa := .ok, ed25519 := .fail "not Ed25519", ecdsa := .fail "not ECDSA"
  , dss := .fail "not DSS" }

/-- Remote state of a task whose log file does not exist yet. -/
def noLogState : RemoteTaskState :=
  { processAlive := true, logFileExists := false, logContent := [] }

/-- Launch snippet capture with exit status zero and a parseable pid on
stdout, but a host-key warning on stderr. -/
def warnSnippet : SnippetResult :=
  { stdout := "1234", stderr := "Warning: Permanently added host key"
  , exitStatus := 0 }

/-- Helper environment whose key file is missing. -/
def missingKeyEnv : SshEnv :=
  { keyFileExists := false, keyFile := plainRsaKeyFile
  , connect := .ok (), exec := .ok ("", "", 0) }

/-! ## Theorems -/

/-- C1, counterexample: on a passphrase-protected key file (RSA parse
raises PasswordRequiredException, no other parser accepts it), the
monitor and kill operations do not produce the distinct passphrase
outcome; they fall through the probe order and end in a generic load
error, refuting the claim that every key-loading operation fails with
PassphraseRequired. -/
theorem c1_counterexample :
    loadKeyCheck encryptedRsaKeyFile ≠ KeyLoadOutcome.passphraseRequired ∧
    loadKeyKill encryptedRsaKeyFile ≠ KeyLoadOutcome.passphraseRequired ∧
    loadKeyCheck encryptedRsaKeyFile = KeyLoadOutcome.loadError passphraseMsg := by
  refine ⟨?_, ?_, rfl⟩ <;> decide

/-- C1, amended: on a key file whose RSA parse raises
PasswordRequiredException, the one-shot execute and the background
launch fail with the distinct passphrase outcome without trying further
algorithms, while the monitor and kill operations fall through the whole
probe order and, when no other algorithm parses the file, fail with a
generic load error that stringifies the passphrase exception. -/
theorem c1_amended (f : KeyFile) (h : f.rsa = ParseAttempt.passphrase) :
    (loadKeyExecute f = KeyLoadOutcome.passphraseRequired ∧
     loadKeyLaunch f = KeyLoadOutcome.passphraseRequired) ∧
    (f.ed25519 ≠ ParseAttempt.ok → f.ecdsa ≠ ParseAttempt.ok →
     f.dss ≠ ParseAttempt.ok →
     loadKeyCheck f = KeyLoadOutcome.loadError passphraseMsg ∧
     loadKeyKill f = KeyLoadOutcome.loadError passphraseMsg) := by
  obtain ⟨r, e, c, d⟩ := f
  simp only at h
  subst h
  refine ⟨⟨rfl, rfl⟩, ?_⟩
  intro he hc hd
  cases e <;> cases c <;> cases d <;>
    simp_all [loadKeyCheck, loadKeyKill, attemptMsg]

/-- C1, witness: the amended statement evaluated on the concrete
encrypted key file. -/
theorem c1_witness :
    (loadKeyExecute encryptedRsaKeyFile = KeyLoadOutcome.passphraseRequired ∧
     loadKeyLaunch encryptedRsaKeyFile = KeyLoadOutcome.passphraseRequired) ∧
    (loadKeyCheck encryptedRsaKeyFile = KeyLoadOutcome.loadError passphraseMsg ∧
     loadKeyKill encryptedRsaKeyFile = KeyLoadOutcome.loadError passphraseMsg) :=
  ⟨(c1_amended encryptedRsaKeyFile rfl).1,
   (c1_amended encryptedRsaKeyFile rfl).2
     (by decide) (by decide) (by decide)⟩

/-- C2, counterexample: when the log file does not exist, the monitor
captures the substitute text Log file not found as the log tail, so the
log tail component is not empty as the claim states. -/
theorem c2_counterexample :
    (sshCheckBackgroundTask noLogState 50).logTail ≠ "" ∧
    (sshCheckBackgroundTask noLogState 50).logTail = "Log file not found" := by
  refine ⟨?_, rfl⟩
  decide

/-- C2, amended: for a monitored task whose log file does not exist, the
status operation still succeeds (the tool returns a status report, not
an error), but the log tail component holds the substitute text Log file
not found and the line count reads 0, rather than an empty tail. -/
theorem c2_amended (f : KeyFile) (a : KeyAlgo) (st : RemoteTaskState) (n : Nat)
    (hk : loadKeyCheck f = KeyLoadOutcome.loaded a)
    (hlog : st.logFileExists = false) :
    sshCheckBackgroundTaskTool f (Except.ok ()) st n =
      Except.ok (sshCheckBackgroundTask st n) ∧
    (sshCheckBackgroundTask st n).logTail = "Log file not found" ∧
    (sshCheckBackgroundTask st n).logLineCount = "0" := by
  refine ⟨?_, ?_, ?_⟩
  · simp [sshCheckBackgroundTaskTool, hk]
  · simp [sshCheckBackgroundTask, hlog]
  · simp [sshCheckBackgroundTask, hlog]

/-- C2, witness: the amended statement evaluated on a concrete key file
and a concrete task state with a missing log file. -/
theorem c2_witness :
    sshCheckBackgroundTaskTool plainRsaKeyFile (Except.ok ()) noLogState 50 =
      Except.ok (sshCheckBackgroundTask noLogState 50) ∧
    (sshCheckBackgroundTask noLogState 50).logTail = "Log file not found" ∧
    (sshCheckBackgroundTask noLogState 50).logLineCount = "0" :=
  c2_amended plainRsaKeyFile KeyAlgo.rsa noLogState 50 rfl rfl

/-- C3, counterexample: a launch snippet capture with exit status zero
and a parseable process id on stdout, but a non-empty stderr, is
reported as a launch failure, although the claim says launch fails
exactly when the exit status is non-zero or stdout does not parse. -/
theorem c3_counterexample :
    warnSnippet.exitStatus = 0 ∧
    parsePyInt warnSnippet.stdout = some 1234 ∧
    (sshExecuteBackgroundCommand "job_1a2b3c4d" warnSnippet).isFailure = true := by
  refine ⟨rfl, ?_, ?_⟩ <;> decide

/-- C3, amended: the background launch fails exactly when the captured
stderr is non-empty or the exit status is non-zero (the Error starting
background task message) or the captured stdout does not parse with
int() (the Failed to parse process ID message); when stderr is empty,
the exit status is zero and stdout parses, it returns the handle of task
id, process id, log path and pid path. -/
theorem c3_amended (tid : String) (r : SnippetResult) :
    ((r.stderr ≠ "" ∨ r.exitStatus ≠ 0) →
      sshExecuteBackgroundCommand tid r =
        LaunchResult.launchFailure ("Error starting background task:\nSTDERR: " ++
          r.stderr ++ "\nExit Status: " ++ toString r.exitStatus)) ∧
    (r.stderr = "" → r.exitStatus = 0 → parsePyInt r.stdout = none →
      sshExecuteBackgroundCommand tid r =
        LaunchResult.launchFailure ("Failed to parse process ID: " ++ r.stdout)) ∧
    (∀ pid : Int, r.stderr = "" → r.exitStatus = 0 →
      parsePyInt r.stdout = some pid →
      sshExecuteBackgroundCommand tid r =
        LaunchResult.started tid pid (launchLogFile tid) (launchPidFile tid)) := by
  refine ⟨?_, ?_, ?_⟩
  · intro h
    unfold sshExecuteBackgroundCommand
    rw [if_pos h]
  · intro h1 h2 h3
    have hn : ¬ (r.stderr ≠ "" ∨ r.exitStatus ≠ 0) := by simp [h1, h2]
    unfold sshExecuteBackgroundCommand
    rw [if_neg hn, h3]
  · intro pid h1 h2 h3
    have hn : ¬ (r.stderr ≠ "" ∨ r.exitStatus ≠ 0) := by simp [h1, h2]
    unfold sshExecuteBackgroundCommand
    rw [if_neg hn, h3]

/-- C3, witness: the amended statement evaluated on a concrete clean
snippet capture, yielding the task handle. -/
theorem c3_witness :
    sshExecuteBackgroundCommand "job_1a2b3c4d"
      { stdout := "4321", stderr := "", exitStatus := 0 } =
      LaunchResult.started "job_1a2b3c4d" 4321
        (launchLogFile "job_1a2b3c4d") (launchPidFile "job_1a2b3c4d") :=
  (c3_amended "job_1a2b3c4d"
      { stdout := "4321", stderr := "", exitStatus := 0 }).2.2
    4321 rfl rfl (by decide)

/-- C4: when the process is alive at the initial probe, the kill tool
sends the graceful signal, waits the single fixed grace period, and
re-probes; only when the re-probe still finds the process alive does it
send kill -9 and report FORCE_KILLED, with the forceful signal occurring
strictly after the one grace-period wait in the event order; when the
re-probe finds the process gone it reports TERMINATED and no forceful
signal appears in the events. -/
theorem c4_force_kill_after_one_grace_period (sc : KillScenario)
    (h : sc.aliveAtProbe = true) :
    (sc.aliveAfterGrace = true →
      (sshKillBackgroundTask sc).killResult = some "FORCE_KILLED" ∧
      (sshKillBackgroundTask sc).events =
        [KillEvent.probe, KillEvent.sigTerm, KillEvent.graceSleep,
         KillEvent.reprobe, KillEvent.sigKill, KillEvent.cleanup]) ∧
    (sc.aliveAfterGrace = false →
      (sshKillBackgroundTask sc).killResult = some "TERMINATED" ∧
      KillEvent.sigKill ∉ (sshKillBackgroundTask sc).events) := by
  obtain ⟨a, b⟩ := sc
  simp only at h
  subst h
  cases b
  · refine ⟨?_, ?_⟩
    · intro hb
      cases hb
    · intro hb
      decide
  · refine ⟨?_, ?_⟩
    · intro hb
      decide
    · intro hb
      cases hb

/-- C4, witness: the statement evaluated on the scenario of a process
that ignores the graceful signal. -/
theorem c4_witness :
    (sshKillBackgroundTask { aliveAtProbe := true, aliveAfterGrace := true
      }).killResult = some "FORCE_KILLED" ∧
    (sshKillBackgroundTask { aliveAtProbe := true, aliveAfterGrace := true
      }).events =
      [KillEvent.probe, KillEvent.sigTerm, KillEvent.graceSleep,
       KillEvent.reprobe, KillEvent.sigKill, KillEvent.cleanup] :=
  (c4_force_kill_after_one_grace_period
    { aliveAtProbe := true, aliveAfterGrace := true } rfl).1 rfl

/-- C5: when the initial probe reports the process not running, the kill
tool reports NOT_RUNNING, never runs the kill snippet (so neither the
graceful nor the forceful signal is sent), and proceeds directly to the
artifact cleanup. -/
theorem c5_already_stopped_idempotent (sc : KillScenario)
    (h : sc.aliveAtProbe = false) :
    (sshKillBackgroundTask sc).statusLine = "NOT_RUNNING" ∧
    (sshKillBackgroundTask sc).killResult = none ∧
    KillEvent.sigTerm ∉ (sshKillBackgroundTask sc).events ∧
    KillEvent.sigKill ∉ (sshKillBackgroundTask sc).events ∧
    (sshKillBackgroundTask sc).events = [KillEvent.probe, KillEvent.cleanup] := by
  obtain ⟨a, b⟩ := sc
  simp only at h
  subst h
  cases b <;> exact by decide

/-- C5, witness: the statement evaluated on a concrete already-stopped
scenario. -/
theorem c5_witness :
    (sshKillBackgroundTask { aliveAtProbe := false, aliveAfterGrace := false
      }).statusLine = "NOT_RUNNING" ∧
    (sshKillBackgroundTask { aliveAtProbe := false, aliveAfterGrace := false
      }).killResult = none :=
  ⟨(c5_already_stopped_idempotent
      { aliveAtProbe := false, aliveAfterGrace := false } rfl).1,
   (c5_already_stopped_idempotent
      { aliveAtProbe := false, aliveAfterGrace := false } rfl).2.1⟩

/-- C6: called with any non-positive timeout, the readiness poller
returns the timed-out report after zero status queries (hence at most
one), for every possible continuation of the run; failure is returned as
a report by the total loop function, never raised. -/
theorem c6_zero_timeout_times_out (timeout e : Int) (st : InstStatus)
    (rest : List (Int × InstStatus)) (ht : timeout ≤ 0) (he : 0 ≤ e) :
    waitForInstanceReady timeout ((e, st) :: rest) =
      some (ReadyOutcome.timedOut, 0) ∧
    ∀ p : ReadyOutcome × Nat,
      waitForInstanceReady timeout ((e, st) :: rest) = some p → p.2 ≤ 1 := by
  have hguard : ¬ (e < timeout) := by omega
  constructor
  · simp only [waitForInstanceReady]
    rw [if_neg hguard]
  · intro p hp
    simp only [waitForInstanceReady] at hp
    rw [if_neg hguard] at hp
    cases hp
    decide

/-- C6, witness: the statement evaluated at timeout zero on a trace
whose first query would even have answered running. -/
theorem c6_witness :
    waitForInstanceReady 0 [(0, InstStatus.statusStr "running")] =
      some (ReadyOutcome.timedOut, 0) :=
  (c6_zero_timeout_times_out 0 0 (InstStatus.statusStr "running") []
    (by decide) (by decide)).1

/-- C7: for every task id, the log and pid artifact paths are the
deterministic functions tmp slash ssh_task underscore id dot log and dot
pid of the task id alone, and the launch, monitor and kill operations
all recompute exactly the same two paths. -/
theorem c7_artifact_paths_deterministic (t : String) :
    launchLogFile t = "/tmp/ssh_task_" ++ t ++ ".log" ∧
    launchPidFile t = "/tmp/ssh_task_" ++ t ++ ".pid" ∧
    checkLogFile t = launchLogFile t ∧
    checkPidFile t = launchPidFile t ∧
    killLogFile t = launchLogFile t ∧
    killPidFile t = launchPidFile t :=
  ⟨rfl, rfl, rfl, rfl, rfl, rfl⟩

/-- C8, counterexample: the remote command execution round trip of the
one-shot helper and the HTTP result polling GET of execute_command are
both issued without any timeout, refuting the claim that every network
round trip, remote command execution included, has a fixed finite
timeout configured. -/
theorem c8_counterexample :
    configuredTimeout NetworkCall.execCommandExecute = none ∧
    configuredTimeout NetworkCall.resultPollGetExecuteCommand = none ∧
    ¬ ∀ c : NetworkCall, (configuredTimeout c).isSome = true :=
  ⟨rfl, rfl, fun h => by
    have := h NetworkCall.execCommandExecute
    simp [configuredTimeout] at this⟩

/-- C8, amended: only the four SSH connect calls and the API request
helper configure a fixed 30-second timeout; every remote command
execution round trip (the eight exec_command calls, whose paramiko
default channel timeout is None) and both HTTP result polling GET calls
are issued without a timeout, so those round trips can block
unboundedly. -/
theorem c8_amended :
    configuredTimeout NetworkCall.sshConnectExecute = some 30 ∧
    configuredTimeout NetworkCall.sshConnectLaunch = some 30 ∧
    configuredTimeout NetworkCall.sshConnectCheck = some 30 ∧
    configuredTimeout NetworkCall.sshConnectKill = some 30 ∧
    configuredTimeout NetworkCall.apiRequest = some 30 ∧
    configuredTimeout NetworkCall.execCommandExecute = none ∧
    configuredTimeout NetworkCall.execCommandLaunch = none ∧
    configuredTimeout NetworkCall.execCommandCheckProbe = none ∧
    configuredTimeout NetworkCall.execCommandCheckLog = none ∧
    configuredTimeout NetworkCall.execCommandCheckSize = none ∧
    configuredTimeout NetworkCall.execCommandKillProbe = none ∧
    configuredTimeout NetworkCall.execCommandKillSnippet = none ∧
    configuredTimeout NetworkCall.execCommandKillCleanup = none ∧
    configuredTimeout NetworkCall.resultPollGetExecuteCommand = none ∧
    configuredTimeout NetworkCall.resultPollGetLogs = none :=
  ⟨rfl, rfl, rfl, rfl, rfl, rfl, rfl, rfl, rfl, rfl, rfl, rfl, rfl, rfl, rfl⟩

/-- C9: the tool entry points are total over their error paths: whenever
any dependency of the one-shot SSH helper fails or raises, the helper
returns the error dict with success false and the error message set
instead of propagating; the user-info and prepare-instance tools map a
raised exception to their formatted error strings; and the background
monitor tool maps a failure raised after key loading to its formatted
error string. -/
theorem c9_tools_total_over_error_paths (host user keyPath : String)
    (port : Int) (env : SshEnv) (e1 e2 e3 : String) (f : KeyFile)
    (a : KeyAlgo) (st : RemoteTaskState) (n : Nat) :
    (env.anyFailure = true →
      (executeSshCommand host user port keyPath env).success = false ∧
      ((executeSshCommand host user port keyPath env).error).isSome = true) ∧
    showUserInfoTool (Except.error e1) = "Error getting user info: " ++ e1 ∧
    prepareInstanceTool (Except.error e2) =
      "❌ Failed to prepare instance: " ++ e2 ∧
    (loadKeyCheck f = KeyLoadOutcome.loaded a →
      sshCheckBackgroundTaskTool f (Except.error e3) st n =
        Except.error ("Error checking background task: " ++ e3)) := by
  refine ⟨?_, rfl, rfl, ?_⟩
  · intro h
    obtain ⟨ke, kf, conn, ex⟩ := env
    cases ke
    · simp [executeSshCommand, errDict]
    · rcases hk : loadKeyExecute kf with a2 | _ | m
      · cases conn with
        | error r => simp [executeSshCommand, hk, errDict]
        | ok u =>
          cases ex with
          | error r => simp [executeSshCommand, hk, errDict]
          | ok t =>
            exfalso
            simp [SshEnv.anyFailure, hk] at h
      · simp [executeSshCommand, hk, errDict]
      · simp [executeSshCommand, hk, errDict]
  · intro hk
    simp [sshCheckBackgroundTaskTool, hk]

/-- C9, witness: the statement evaluated on the concrete environment
with a missing key file, a concrete raised message for each tool, and
the concrete plain RSA key file for the monitor. -/
theorem c9_witness :
    ((executeSshCommand "203.0.113.5" "root" 22 "/root/.ssh/id_rsa"
        missingKeyEnv).success = false ∧
      ((executeSshCommand "203.0.113.5" "root" 22 "/root/.ssh/id_rsa"
        missingKeyEnv).error).isSome = true) ∧
    showUserInfoTool (Except.error "connection refused") =
      "Error getting user info: connection refused" ∧
    sshCheckBackgroundTaskTool plainRsaKeyFile
        (Except.error "host unreachable") noLogState 50 =
      Except.error ("Error checking background task: host unreachable") :=
  ⟨(c9_tools_total_over_error_paths "203.0.113.5" "root" "/root/.ssh/id_rsa" 22
      missingKeyEnv "connection refused" "x" "host unreachable"
      plainRsaKeyFile KeyAlgo.rsa noLogState 50).1 (by decide),
   (c9_tools_total_over_error_paths "203.0.113.5" "root" "/root/.ssh/id_rsa" 22
      missingKeyEnv "connection refused" "x" "host unreachable"
      plainRsaKeyFile KeyAlgo.rsa noLogState 50).2.1,
   (c9_tools_total_over_error_paths "203.0.113.5" "root" "/root/.ssh/id_rsa" 22
      missingKeyEnv "connection refused" "x" "host unreachable"
      plainRsaKeyFile KeyAlgo.rsa noLogState 50).2.2.2 rfl⟩

/-- Replicated-state lemma: once the global holds a client, every later
call returns that same client and constructs nothing. -/
theorem getVastClientCalls_from_some (k : Option String) :
    ∀ (n : Nat) (c : VastAIClient),
      getVastClientCalls k n (some c) = (List.replicate n c, some c, 0) := by
  intro n
  induction n with
  | zero => intro c; rfl
  | succ m ih =>
    intro c
    simp [getVastClientCalls, getVastClient, ih, List.replicate]

/-- C10: the global client is a process-wide singleton: over any number
of calls starting from the unset global, the constructor runs at most
once (exactly min n 1 times), every call returns the one client built
from the environment api key, and that client carries the environment
api key and the default server url. -/
theorem c10_singleton_client (k : Option String) (n : Nat) :
    getVastClientCalls k n none =
      (List.replicate n (VastAIClient.new k),
       if n = 0 then none else some (VastAIClient.new k),
       min n 1) ∧
    (getVastClientCalls k n none).2.2 ≤ 1 ∧
    (VastAIClient.new k).apiKey = k ∧
    (VastAIClient.new k).serverUrl = defaultServerUrl := by
  have hmain : getVastClientCalls k n none =
      (List.replicate n (VastAIClient.new k),
       if n = 0 then none else some (VastAIClient.new k),
       min n 1) := by
    cases n with
    | zero => rfl
    | succ m =>
      simp [getVastClientCalls, getVastClient,
        getVastClientCalls_from_some k m (VastAIClient.new k),
        List.replicate]
  refine ⟨hmain, ?_, rfl, rfl⟩
  rw [hmain]
  simp

end VastMCP
